import Mathlib

/-!
# WeasyPrint Node.js bridge — verification of the stdin/stdout protocol

Shallow embedding of the two bridge scripts:

* `weasyprint_bridge_secure.py` — single-shot mode: read one JSON line from
  stdin, render, reply with one JSON envelope on stdout, exit 0/1.
* `weasyprint_bridge_optimized.py` — fast/persistent mode: loop over stdin
  lines, write raw PDF bytes to stdout, skip malformed JSON, write a JSON
  error payload to stderr and stop on any other failure.

The external rendering library (WeasyPrint) and Python's `json.loads` are
modelled as parameters: `RenderLib` maps an HTML string and an optional
effective CSS string to either PDF bytes or an exception message, and
`JsonParse` maps a stripped input line to either a parsed request object or a
decode-error message.  Everything the scripts themselves do — field
extraction with defaults, truthiness checks, base64 encoding, envelope
construction, exit codes, loop control — is embedded directly from the
source.
-/

namespace WeasyBridge

/-- PDF content as a sequence of bytes (each `< 256`). -/
abbrev ByteSeq := List Nat

/-- A parsed JSON request object: the three fields the bridges read via
`input_data.get`.  A missing field is `none`. -/
structure Request where
  html : Option String
  css : Option String
  request_id : Option String
deriving DecidableEq

/-- The external rendering library (WeasyPrint `write_pdf` behind the
`HTML`/`CSS` constructors together with the cached font configuration):
given the HTML string and the optional stylesheet string it either produces
PDF bytes or raises, reported as an error message. -/
abbrev RenderLib := String → Option String → Except String ByteSeq

/-- Python's `json.loads` on the stripped line: either a parsed request
object or a `JSONDecodeError` message. -/
abbrev JsonParse := String → Except String Request

/-- Both bridges guard the stylesheet with `if css_content:`: Python
truthiness makes `None` and the empty string both skip the `CSS(...)`
construction, so the library receives a stylesheet only for a non-empty
`css` string. -/
def effectiveCss : Option String → Option String
  | some c => if c = "" then none else some c
  | none => none

/-- `generate_pdf_secure` from `weasyprint_bridge_secure.py`: call the
library and wrap any exception as `PDF generation failed: ...`. -/
def generate_pdf_secure (lib : RenderLib) (html_content : String)
    (css_content : Option String) : Except String ByteSeq :=
  match lib html_content (effectiveCss css_content) with
  | .ok bs => .ok bs
  | .error e => .error ("PDF generation failed: " ++ e)

/-- `generate_pdf_fast` from `weasyprint_bridge_optimized.py`: identical
render-and-wrap logic to the secure variant. -/
def generate_pdf_fast (lib : RenderLib) (html_content : String)
    (css_content : Option String) : Except String ByteSeq :=
  match lib html_content (effectiveCss css_content) with
  | .ok bs => .ok bs
  | .error e => .error ("PDF generation failed: " ++ e)

/-! ## Base64 (Python `base64.b64encode` on bytes, standard alphabet) -/

/-- The standard base64 alphabet used by `base64.b64encode`. -/
def b64Alphabet : String :=
  "ABCDEFGHIJKLMNOPQRSTUVWXYZabcdefghijklmnopqrstuvwxyz0123456789+/"

/-- The alphabet character for a sextet value. -/
def b64Char (n : Nat) : Char := b64Alphabet.toList.getD n 'A'

/-- The sextet value of an alphabet character, `none` for a non-alphabet
character. -/
def b64Val (c : Char) : Option Nat :=
  let l := b64Alphabet.toList
  let i := l.indexOf c
  if i < l.length then some i else none

/-- Standard base64 encoding of a byte sequence, three bytes to four
characters, with `=` padding. -/
def b64EncodeList : ByteSeq → List Char
  | [] => []
  | [a] => [b64Char (a / 4), b64Char (a % 4 * 16), '=', '=']
  | [a, b] => [b64Char (a / 4), b64Char (a % 4 * 16 + b / 16),
               b64Char (b % 16 * 4), '=']
  | a :: b :: c :: rest =>
      b64Char (a / 4) :: b64Char (a % 4 * 16 + b / 16) ::
      b64Char (b % 16 * 4 + c / 64) :: b64Char (c % 64) :: b64EncodeList rest

/-- `base64.b64encode(bs).decode('utf-8')` as one string. -/
def b64Encode (bs : ByteSeq) : String := String.mk (b64EncodeList bs)

/-- Drop the `=` padding characters before decoding. -/
def stripPad : List Char → List Char
  | [] => []
  | c :: cs => if c = '=' then stripPad cs else c :: stripPad cs

/-- Decode an unpadded base64 character sequence back to bytes. -/
def b64DecodeCore : List Char → Option ByteSeq
  | [] => some []
  | [c1, c2] => do
      let a ← b64Val c1
      let b ← b64Val c2
      some [a * 4 + b / 16]
  | [c1, c2, c3] => do
      let a ← b64Val c1
      let b ← b64Val c2
      let c ← b64Val c3
      some [a * 4 + b / 16, b % 16 * 16 + c / 4]
  | c1 :: c2 :: c3 :: c4 :: rest => do
      let a ← b64Val c1
      let b ← b64Val c2
      let c ← b64Val c3
      let d ← b64Val c4
      let tail ← b64DecodeCore rest
      some ((a * 4 + b / 16) :: (b % 16 * 16 + c / 4) :: (c % 4 * 64 + d) :: tail)
  | _ => none

/-- Base64 decoding of a string (what a caller does with `pdf_base64`). -/
def b64Decode (s : String) : Option ByteSeq :=
  b64DecodeCore (stripPad s.toList)

/-! ## Secure/single-shot bridge: `main` of `weasyprint_bridge_secure.py` -/

/-- A JSON response object printed by the secure bridge: either the success
envelope `{success: true, request_id, pdf_base64, size}` or the failure
envelope `{success: false, request_id, error}`. -/
inductive Response where
  | success (request_id : String) (pdf_base64 : String) (size : Nat)
  | failure (request_id : String) (error : String)
deriving DecidableEq

/-- The `request_id` field of either envelope. -/
def Response.rid : Response → String
  | .success r _ _ => r
  | .failure r _ => r

/-- Whether the envelope carries a `pdf_base64` field. -/
def Response.hasPdfField : Response → Bool
  | .success _ _ _ => true
  | .failure _ _ => false

/-- Observable outcome of one secure-bridge invocation: the JSON objects
printed to stdout, in order, and the process exit status. -/
structure SecureResult where
  stdout : List Response
  exitCode : Nat
deriving DecidableEq

/-- `main` of `weasyprint_bridge_secure.py`.  `stdin` is the line returned by
`sys.stdin.readline()`, `none` when it returns the empty string (EOF).

* EOF: `sys.exit(1)`; the `SystemExit` is not an `Exception`, so the handler
  does not print an envelope — stdout stays empty.
* `json.loads` failure: the handler runs with `input_data` unbound, so the
  envelope carries the placeholder `request_id` `"unknown"` and exit is 1.
* Empty `html`: a single failure envelope and `sys.exit(1)`.
* Render exception: the handler reads `request_id` from the parsed input.
* Otherwise: the success envelope with base64 PDF and size, `sys.exit(0)`. -/
def secure_main (lib : RenderLib) (parse : JsonParse)
    (stdin : Option String) : SecureResult :=
  match stdin with
  | none => ⟨[], 1⟩
  | some line =>
    match parse line.trim with
    | .error e => ⟨[.failure "unknown" e], 1⟩
    | .ok input_data =>
      let html_content := input_data.html.getD ""
      let request_id := input_data.request_id.getD "unknown"
      if html_content = "" then
        ⟨[.failure request_id "HTML content is required"], 1⟩
      else
        match generate_pdf_secure lib html_content input_data.css with
        | .ok pdf_bytes =>
            ⟨[.success request_id (b64Encode pdf_bytes) pdf_bytes.length], 0⟩
        | .error e => ⟨[.failure request_id e], 1⟩

/-! ## Fast/persistent bridge: `main` of `weasyprint_bridge_optimized.py` -/

/-- The JSON error payload the fast bridge writes to stderr before breaking:
`{'success': False, 'error': str(e), 'traceback': traceback.format_exc()}`.
The traceback text is a runtime artifact; the model records its presence. -/
structure ErrPayload where
  success : Bool
  error : String
  hasTraceback : Bool
deriving DecidableEq

/-- Observable outcome of a fast-bridge run over a finite stdin: the raw
bytes written to stdout (concatenated, in order), the JSON error payloads
written to stderr, and whether the loop ended via the error path rather than
EOF. -/
structure FastResult where
  stdout : ByteSeq
  stderrPayloads : List ErrPayload
  brokeOnError : Bool
deriving DecidableEq

/-- `main` of `weasyprint_bridge_optimized.py`.  `stdin` is the list of lines
`sys.stdin.readline()` yields; after the list it yields `""` forever, so the
loop breaks at the end of the list, or earlier at a `""` element.

* Malformed JSON (`except json.JSONDecodeError`): `continue`, nothing
  written anywhere for that line.
* Empty `html`: `raise ValueError("HTML content is required")`, caught by
  the generic handler — error payload to stderr, `break`.
* Render exception: same generic handler, with the wrapped message.
* Success: raw PDF bytes to stdout, flush, next iteration. -/
def fast_main (lib : RenderLib) (parse : JsonParse) : List String → FastResult
  | [] => ⟨[], [], false⟩
  | line :: rest =>
    if line = "" then ⟨[], [], false⟩
    else
      match parse line.trim with
      | .error _ => fast_main lib parse rest
      | .ok input_data =>
        let html_content := input_data.html.getD ""
        if html_content = "" then
          ⟨[], [⟨false, "HTML content is required", true⟩], true⟩
        else
          match generate_pdf_fast lib html_content input_data.css with
          | .ok pdf_bytes =>
              let r := fast_main lib parse rest
              ⟨pdf_bytes ++ r.stdout, r.stderrPayloads, r.brokeOnError⟩
          | .error e => ⟨[], [⟨false, e, true⟩], true⟩

/-! ## Concrete fixtures used by the witness theorems -/

/-- A renderer that always produces the bytes `%PDF`. -/
def wLib : RenderLib := fun _ _ => .ok [37, 80, 68, 70]

/-- A renderer that always raises. -/
def wLibErr : RenderLib := fun _ _ => .error "boom"

/-- A parse that yields a full request. -/
def wParse : JsonParse := fun _ => .ok ⟨some "<p>hi</p>", none, some "r1"⟩

/-- A parse that yields a request without a `request_id` field. -/
def wParseNoRid : JsonParse := fun _ => .ok ⟨some "<p>hi</p>", none, none⟩

/-- A parse that yields a request without an `html` field. -/
def wParseNoHtml : JsonParse := fun _ => .ok ⟨none, none, some "r2"⟩

/-- A parse that always fails, as `json.loads` does on malformed input. -/
def wParseErr : JsonParse := fun _ => .error "Expecting value"

/-! ## Base64 round-trip -/

theorem b64Alphabet_length : b64Alphabet.toList.length = 64 := by decide

theorem b64Val_b64Char : ∀ i : Fin 64, b64Val (b64Char i.val) = some i.val := by decide

theorem b64Char_lt_ne_pad : ∀ i : Fin 64, b64Char i.val ≠ '=' := by decide

theorem b64Char_ne_pad (n : Nat) : b64Char n ≠ '=' := by
  by_cases h : n < 64
  · exact b64Char_lt_ne_pad ⟨n, h⟩
  · have h64 : b64Alphabet.toList.length ≤ n := by rw [b64Alphabet_length]; omega
    unfold b64Char
    rw [List.getD_eq_default _ _ h64]
    decide

theorem b64DecodeCore_stripPad_encode (bs : ByteSeq) (h : ∀ x ∈ bs, x < 256) :
    b64DecodeCore (stripPad (b64EncodeList bs)) = some bs := by
  induction bs using b64EncodeList.induct with
  | case1 => simp [b64EncodeList, stripPad, b64DecodeCore]
  | case2 a =>
      have ha : a < 256 := h a (by simp)
      have e1 : b64Val (b64Char (a / 4)) = some (a / 4) :=
        b64Val_b64Char ⟨a / 4, by omega⟩
      have e2 : b64Val (b64Char (a % 4 * 16)) = some (a % 4 * 16) :=
        b64Val_b64Char ⟨a % 4 * 16, by omega⟩
      simp [b64EncodeList, stripPad, b64Char_ne_pad, b64DecodeCore, e1, e2]
      omega
  | case3 a b =>
      have ha : a < 256 := h a (by simp)
      have hb : b < 256 := h b (by simp)
      have e1 : b64Val (b64Char (a / 4)) = some (a / 4) :=
        b64Val_b64Char ⟨a / 4, by omega⟩
      have e2 : b64Val (b64Char (a % 4 * 16 + b / 16)) = some (a % 4 * 16 + b / 16) :=
        b64Val_b64Char ⟨a % 4 * 16 + b / 16, by omega⟩
      have e3 : b64Val (b64Char (b % 16 * 4)) = some (b % 16 * 4) :=
        b64Val_b64Char ⟨b % 16 * 4, by omega⟩
      simp [b64EncodeList, stripPad, b64Char_ne_pad, b64DecodeCore, e1, e2, e3]
      constructor <;> omega
  | case4 a b c rest ih =>
      have ha : a < 256 := h a (by simp)
      have hb : b < 256 := h b (by simp)
      have hc : c < 256 := h c (by simp)
      have e1 : b64Val (b64Char (a / 4)) = some (a / 4) :=
        b64Val_b64Char ⟨a / 4, by omega⟩
      have e2 : b64Val (b64Char (a % 4 * 16 + b / 16)) = some (a % 4 * 16 + b / 16) :=
        b64Val_b64Char ⟨a % 4 * 16 + b / 16, by omega⟩
      have e3 : b64Val (b64Char (b % 16 * 4 + c / 64)) = some (b % 16 * 4 + c / 64) :=
        b64Val_b64Char ⟨b % 16 * 4 + c / 64, by omega⟩
      have e4 : b64Val (b64Char (c % 64)) = some (c % 64) :=
        b64Val_b64Char ⟨c % 64, by omega⟩
      have ih' := ih (fun x hx => h x (by simp [hx]))
      simp [b64EncodeList, stripPad, b64Char_ne_pad, b64DecodeCore,
        e1, e2, e3, e4, ih']
      refine ⟨?_, ?_, ?_⟩ <;> omega

/-- Decoding the `pdf_base64` string recovers exactly the encoded bytes. -/
theorem b64_roundtrip (bs : ByteSeq) (h : ∀ x ∈ bs, x < 256) :
    b64Decode (b64Encode bs) = some bs := by
  have hs : (b64Encode bs).toList = b64EncodeList bs := rfl
  rw [b64Decode, hs]
  exact b64DecodeCore_stripPad_encode bs h

/-! ## Claims about the secure/single-shot bridge -/

/-- C1: in secure mode, for every stdin line that parses as JSON with a
non-empty html field and renders successfully, the process writes exactly one
JSON object to stdout with `success = true`, the request_id, `pdf_base64`
equal to the base64 encoding of the rendered PDF bytes (decoding it yields
exactly those bytes), and `size` equal to their byte length, and exits with
status 0. -/
theorem secure_success_envelope
    (lib : RenderLib) (parse : JsonParse) (line : String) (req : Request)
    (pdf : ByteSeq)
    (hparse : parse line.trim = .ok req)
    (hhtml : req.html.getD "" ≠ "")
    (hlib : lib (req.html.getD "") (effectiveCss req.css) = .ok pdf)
    (hbytes : ∀ x ∈ pdf, x < 256) :
    secure_main lib parse (some line) =
      ⟨[Response.success (req.request_id.getD "unknown") (b64Encode pdf)
          pdf.length], 0⟩
    ∧ b64Decode (b64Encode pdf) = some pdf := by
  refine ⟨?_, b64_roundtrip pdf hbytes⟩
  simp [secure_main, hparse, hhtml, generate_pdf_secure, hlib]

theorem secure_success_envelope_witness :
    secure_main wLib wParse (some "req") =
      ⟨[Response.success "r1" (b64Encode [37, 80, 68, 70]) 4], 0⟩
    ∧ b64Decode (b64Encode [37, 80, 68, 70]) = some [37, 80, 68, 70] :=
  secure_success_envelope wLib wParse "req"
    ⟨some "<p>hi</p>", none, some "r1"⟩ [37, 80, 68, 70]
    rfl (by decide) rfl (by decide)

/-- C2: in secure mode, every failure — JSON parse error, empty html, render
exception — yields a `success = false` envelope with an error message and the
request_id when recoverable (placeholder otherwise), with exit status 1; and
the exit status is 0 only when a `success = true` envelope was written. -/
theorem secure_failure_envelopes
    (lib : RenderLib) (parse : JsonParse) (line : String) :
    (∀ e, parse line.trim = .error e →
      secure_main lib parse (some line) =
        ⟨[Response.failure "unknown" e], 1⟩)
  ∧ (∀ req, parse line.trim = .ok req → req.html.getD "" = "" →
      secure_main lib parse (some line) =
        ⟨[Response.failure (req.request_id.getD "unknown")
            "HTML content is required"], 1⟩)
  ∧ (∀ req e, parse line.trim = .ok req → req.html.getD "" ≠ "" →
      lib (req.html.getD "") (effectiveCss req.css) = .error e →
      secure_main lib parse (some line) =
        ⟨[Response.failure (req.request_id.getD "unknown")
            ("PDF generation failed: " ++ e)], 1⟩)
  ∧ (∀ stdin : Option String, (secure_main lib parse stdin).exitCode = 0 →
      ∃ rid p n,
        (secure_main lib parse stdin).stdout = [Response.success rid p n]) := by
  refine ⟨?_, ?_, ?_, ?_⟩
  · intro e he
    simp [secure_main, he]
  · intro req hp hh
    simp [secure_main, hp, hh]
  · intro req e hp hh hl
    simp [secure_main, hp, hh, generate_pdf_secure, hl]
  · intro stdin h0
    match stdin with
    | none => simp [secure_main] at h0
    | some l =>
      cases hp : parse l.trim with
      | error e => simp [secure_main, hp] at h0
      | ok req =>
        by_cases hh : req.html.getD "" = ""
        · simp [secure_main, hp, hh] at h0
        · cases hl : lib (req.html.getD "") (effectiveCss req.css) with
          | error e =>
              simp [secure_main, hp, hh, generate_pdf_secure, hl] at h0
          | ok pdf =>
              exact ⟨req.request_id.getD "unknown", b64Encode pdf, pdf.length,
                by simp [secure_main, hp, hh, generate_pdf_secure, hl]⟩

theorem secure_failure_envelopes_witness :
    secure_main wLib wParseErr (some "req") =
      ⟨[Response.failure "unknown" "Expecting value"], 1⟩
  ∧ secure_main wLib wParseNoHtml (some "req") =
      ⟨[Response.failure "r2" "HTML content is required"], 1⟩
  ∧ secure_main wLibErr wParse (some "req") =
      ⟨[Response.failure "r1" ("PDF generation failed: " ++ "boom")], 1⟩
  ∧ ∃ rid p n,
      (secure_main wLib wParse (some "req")).stdout =
        [Response.success rid p n] :=
  ⟨(secure_failure_envelopes wLib wParseErr "req").1 "Expecting value" rfl,
   (secure_failure_envelopes wLib wParseNoHtml "req").2.1
      ⟨none, none, some "r2"⟩ rfl rfl,
   (secure_failure_envelopes wLibErr wParse "req").2.2.1
      ⟨some "<p>hi</p>", none, some "r1"⟩ "boom" rfl (by decide) rfl,
   (secure_failure_envelopes wLib wParse "req").2.2.2 (some "req") (by decide)⟩

/-- C3: in secure mode, a request with empty or missing html yields a single
failure envelope carrying the request_id and an error message, with no
`pdf_base64` field, exit status 1, and no render call is attempted: the
outcome is the same for every rendering library. -/
theorem secure_empty_html_rejection
    (lib : RenderLib) (parse : JsonParse) (line : String) (req : Request)
    (hparse : parse line.trim = .ok req) (hhtml : req.html.getD "" = "") :
    secure_main lib parse (some line) =
      ⟨[Response.failure (req.request_id.getD "unknown")
          "HTML content is required"], 1⟩
  ∧ (∀ resp ∈ (secure_main lib parse (some line)).stdout,
      resp.hasPdfField = false)
  ∧ (∀ lib2 : RenderLib,
      secure_main lib2 parse (some line) = secure_main lib parse (some line)) := by
  have hmain : ∀ L : RenderLib, secure_main L parse (some line) =
      ⟨[Response.failure (req.request_id.getD "unknown")
          "HTML content is required"], 1⟩ := by
    intro L
    simp [secure_main, hparse, hhtml]
  refine ⟨hmain lib, ?_, fun lib2 => (hmain lib2).trans (hmain lib).symm⟩
  intro resp hresp
  rw [hmain lib] at hresp
  simp only [List.mem_singleton] at hresp
  subst hresp
  rfl

theorem secure_empty_html_rejection_witness :
    secure_main wLib wParseNoHtml (some "req") =
      ⟨[Response.failure "r2" "HTML content is required"], 1⟩
  ∧ (∀ resp ∈ (secure_main wLib wParseNoHtml (some "req")).stdout,
      resp.hasPdfField = false)
  ∧ (∀ lib2 : RenderLib,
      secure_main lib2 wParseNoHtml (some "req") =
        secure_main wLib wParseNoHtml (some "req")) :=
  secure_empty_html_rejection wLib wParseNoHtml "req"
    ⟨none, none, some "r2"⟩ rfl rfl

/-- C4: in secure mode, every envelope written for a parsed input echoes the
input's request_id when that field is present, and carries the placeholder
`"unknown"` when the field is absent. -/
theorem secure_request_id_echo
    (lib : RenderLib) (parse : JsonParse) (line : String) (req : Request)
    (hparse : parse line.trim = .ok req) :
    (∀ r, req.request_id = some r →
      ∀ resp ∈ (secure_main lib parse (some line)).stdout, resp.rid = r)
  ∧ (req.request_id = none →
      ∀ resp ∈ (secure_main lib parse (some line)).stdout,
        resp.rid = "unknown") := by
  have key : ∀ resp ∈ (secure_main lib parse (some line)).stdout,
      resp.rid = req.request_id.getD "unknown" := by
    intro resp hresp
    by_cases hh : req.html.getD "" = ""
    · simp [secure_main, hparse, hh] at hresp
      subst hresp
      rfl
    · cases hl : lib (req.html.getD "") (effectiveCss req.css) with
      | ok pdf =>
          simp [secure_main, hparse, hh, generate_pdf_secure, hl] at hresp
          subst hresp
          rfl
      | error e =>
          simp [secure_main, hparse, hh, generate_pdf_secure, hl] at hresp
          subst hresp
          rfl
  constructor
  · intro r hr resp hresp
    rw [key resp hresp, hr]
    rfl
  · intro hr resp hresp
    rw [key resp hresp, hr]
    rfl

theorem secure_request_id_echo_witness :
    (∀ resp ∈ (secure_main wLib wParse (some "req")).stdout, resp.rid = "r1")
  ∧ (∀ resp ∈ (secure_main wLib wParseNoRid (some "req")).stdout,
      resp.rid = "unknown") :=
  ⟨(secure_request_id_echo wLib wParse "req"
      ⟨some "<p>hi</p>", none, some "r1"⟩ rfl).1 "r1" rfl,
   (secure_request_id_echo wLib wParseNoRid "req"
      ⟨some "<p>hi</p>", none, none⟩ rfl).2 rfl⟩

/-! ## Claims about the fast/persistent bridge -/

/-- C5: in fast mode, a non-empty stdin line that fails JSON parsing is
silently skipped: the run over the whole input equals the run over the
remaining lines, so nothing is written for that line and the next valid line
is still processed. -/
theorem fast_malformed_line_skipped
    (lib : RenderLib) (parse : JsonParse) (line : String) (rest : List String)
    (hne : line ≠ "") (e : String) (hparse : parse line.trim = .error e) :
    fast_main lib parse (line :: rest) = fast_main lib parse rest := by
  simp [fast_main, hne, hparse]

theorem fast_malformed_line_skipped_witness :
    fast_main wLib wParseErr ["not json", "next"] =
      fast_main wLib wParseErr ["next"] :=
  fast_malformed_line_skipped wLib wParseErr "not json" ["next"]
    (by decide) "Expecting value" rfl

/-- C6: in fast mode, any failure other than a JSON decode error — empty or
missing html, or a render exception — emits no PDF bytes for that request,
writes a single JSON error payload (message plus traceback) to the
diagnostic stream, and terminates the loop: the outcome does not depend on
the remaining lines. -/
theorem fast_fatal_failure_stops_loop
    (lib : RenderLib) (parse : JsonParse) (line : String) (rest : List String)
    (hne : line ≠ "") :
    (∀ req, parse line.trim = .ok req → req.html.getD "" = "" →
      fast_main lib parse (line :: rest) =
        ⟨[], [⟨false, "HTML content is required", true⟩], true⟩)
  ∧ (∀ req e, parse line.trim = .ok req → req.html.getD "" ≠ "" →
      lib (req.html.getD "") (effectiveCss req.css) = .error e →
      fast_main lib parse (line :: rest) =
        ⟨[], [⟨false, "PDF generation failed: " ++ e, true⟩], true⟩) := by
  constructor
  · intro req hp hh
    simp [fast_main, hne, hp, hh]
  · intro req e hp hh hl
    simp [fast_main, hne, hp, hh, generate_pdf_fast, hl]

theorem fast_fatal_failure_stops_loop_witness :
    fast_main wLib wParseNoHtml ["req", "later"] =
      ⟨[], [⟨false, "HTML content is required", true⟩], true⟩
  ∧ fast_main wLibErr wParse ["req", "later"] =
      ⟨[], [⟨false, "PDF generation failed: " ++ "boom", true⟩], true⟩ :=
  ⟨(fast_fatal_failure_stops_loop wLib wParseNoHtml "req" ["later"]
      (by decide)).1 ⟨none, none, some "r2"⟩ rfl rfl,
   (fast_fatal_failure_stops_loop wLibErr wParse "req" ["later"]
      (by decide)).2 ⟨some "<p>hi</p>", none, some "r1"⟩ "boom"
      rfl (by decide) rfl⟩

/-- C7: in fast mode, two consecutive well-formed requests emit the two
rendered PDF byte streams on stdout concatenated in input order with no
interleaving: the first request's bytes form a prefix written before the
second line is even read. -/
theorem fast_two_requests_in_order
    (lib : RenderLib) (parse : JsonParse) (l1 l2 : String) (rest : List String)
    (r1 r2 : Request) (pdf1 pdf2 : ByteSeq)
    (h1 : l1 ≠ "") (hp1 : parse l1.trim = .ok r1)
    (hh1 : r1.html.getD "" ≠ "")
    (hl1 : lib (r1.html.getD "") (effectiveCss r1.css) = .ok pdf1)
    (h2 : l2 ≠ "") (hp2 : parse l2.trim = .ok r2)
    (hh2 : r2.html.getD "" ≠ "")
    (hl2 : lib (r2.html.getD "") (effectiveCss r2.css) = .ok pdf2) :
    (fast_main lib parse (l1 :: l2 :: rest)).stdout
      = pdf1 ++ (pdf2 ++ (fast_main lib parse rest).stdout)
  ∧ fast_main lib parse [l1, l2] = ⟨pdf1 ++ pdf2, [], false⟩ := by
  constructor
  · simp [fast_main, h1, hp1, hh1, generate_pdf_fast, hl1, h2, hp2, hh2, hl2]
  · simp [fast_main, h1, hp1, hh1, generate_pdf_fast, hl1, h2, hp2, hh2, hl2]

theorem fast_two_requests_in_order_witness :
    (fast_main wLib wParse ["aa", "bbb"]).stdout
      = [37, 80, 68, 70] ++ ([37, 80, 68, 70] ++ (fast_main wLib wParse []).stdout)
  ∧ fast_main wLib wParse ["aa", "bbb"] =
      ⟨[37, 80, 68, 70] ++ [37, 80, 68, 70], [], false⟩ :=
  fast_two_requests_in_order wLib wParse "aa" "bbb" []
    ⟨some "<p>hi</p>", none, some "r1"⟩ ⟨some "<p>hi</p>", none, some "r1"⟩
    [37, 80, 68, 70] [37, 80, 68, 70]
    (by decide) rfl (by decide) rfl
    (by decide) rfl (by decide) rfl

/-- C8: both modes' render functions are the same deterministic function of
the html and css inputs given the shared library/font configuration, so
rendering the same input twice — within one fast-mode run or across
secure-mode invocations — yields byte-for-byte identical output. -/
theorem render_deterministic (lib : RenderLib) (html : String)
    (css : Option String) :
    generate_pdf_fast lib html css = generate_pdf_fast lib html css
  ∧ generate_pdf_secure lib html css = generate_pdf_secure lib html css
  ∧ generate_pdf_fast lib html css = generate_pdf_secure lib html css
  ∧ (∀ (parse : JsonParse) (line : String) (req : Request) (pdf : ByteSeq),
      line ≠ "" → parse line.trim = .ok req → req.html.getD "" ≠ "" →
      lib (req.html.getD "") (effectiveCss req.css) = .ok pdf →
      (fast_main lib parse [line, line]).stdout = pdf ++ pdf)
  ∧ (∀ (parse : JsonParse) (stdin : Option String),
      secure_main lib parse stdin = secure_main lib parse stdin) := by
  refine ⟨rfl, rfl, rfl, ?_, fun _ _ => rfl⟩
  intro parse line req pdf hne hp hh hl
  simp [fast_main, hne, hp, hh, generate_pdf_fast, hl]

theorem render_deterministic_witness :
    (fast_main wLib wParse ["req", "req"]).stdout
      = [37, 80, 68, 70] ++ [37, 80, 68, 70] :=
  (render_deterministic wLib "<p>hi</p>" none).2.2.2.1 wParse "req"
    ⟨some "<p>hi</p>", none, some "r1"⟩ [37, 80, 68, 70]
    (by decide) rfl (by decide) rfl

/-- C9: in fast mode, end-of-input terminates the loop cleanly — no error
payload, no output — while a blank-but-present line (a lone newline) is not
end-of-input: it strips to the empty string, fails JSON parsing, and is
skipped with the loop continuing. -/
theorem fast_eof_clean_blank_skipped (lib : RenderLib) (parse : JsonParse) :
    fast_main lib parse [] = ⟨[], [], false⟩
  ∧ (∀ rest, fast_main lib parse ("" :: rest) = ⟨[], [], false⟩)
  ∧ (∀ rest e, parse ("\n".trim) = .error e →
      fast_main lib parse ("\n" :: rest) = fast_main lib parse rest) := by
  refine ⟨rfl, fun rest => by simp [fast_main], ?_⟩
  intro rest e he
  have hne : ("\n" : String) ≠ "" := by decide
  simp [fast_main, hne, he]

theorem fast_eof_clean_blank_skipped_witness :
    fast_main wLib wParseErr [] = ⟨[], [], false⟩
  ∧ fast_main wLib wParseErr ["", "x"] = ⟨[], [], false⟩
  ∧ fast_main wLib wParseErr ["\n", "x"] = fast_main wLib wParseErr ["x"] :=
  ⟨(fast_eof_clean_blank_skipped wLib wParseErr).1,
   (fast_eof_clean_blank_skipped wLib wParseErr).2.1 ["x"],
   (fast_eof_clean_blank_skipped wLib wParseErr).2.2 ["x"]
      "Expecting value" rfl⟩

/-- C10: in secure mode, end-of-input before any request exits with status 1
and writes no JSON object to stdout: the `SystemExit` is not caught by the
`except Exception` handler, so no error envelope is produced. -/
theorem secure_eof_exits_silently (lib : RenderLib) (parse : JsonParse) :
    secure_main lib parse none = ⟨[], 1⟩
  ∧ (secure_main lib parse none).stdout = [] :=
  ⟨rfl, rfl⟩

end WeasyBridge
